import Mathlib

/-!
Verification of the SaleForecast forecasting pipeline
(`controllers/forecastController.js`, `models/Forecast.js`).

The JavaScript source is shallowly embedded:
* JS numbers are modelled as rationals `ℚ` (the source only performs
  field arithmetic, comparisons and guards on finite values);
* possibly-missing JS values (`undefined`, and `NaN` after a failed
  `Number(...)` coercion) are modelled as `Option ℚ`;
* dates are modelled by their UTC millisecond timestamp `ℕ`; the source's
  day bucketing `new Date(x).toISOString().split("T")[0]` becomes integer
  division by the number of milliseconds in a day;
* fallible code returns `Option` or `Except String`.
-/

namespace SaleForecast

/-- The JS idiom `Number(x) || d`: a missing field (`undefined`, which
`Number` turns into `NaN`) and the falsy value `0` both fall back to the
default `d`; any other numeric value is kept. -/
def numOr (x : Option ℚ) (d : ℚ) : ℚ :=
  match x with
  | none => d
  | some v => if v = 0 then d else v

/-- `DAY_IN_MS = 1000 * 60 * 60 * 24` from the controller. -/
def DAY_IN_MS : ℕ := 1000 * 60 * 60 * 24

/-- `MIN_SALES_RECORDS = 10` from the controller. -/
def MIN_SALES_RECORDS : ℕ := 10

/-- UTC calendar-day bucket of a millisecond timestamp: the source's
`new Date(entry.date).toISOString().split("T")[0]` keys a record by its UTC
calendar day, i.e. by `⌊ms / DAY_IN_MS⌋` for timestamps after the epoch. -/
def dayKey (ms : ℕ) : ℕ := ms / DAY_IN_MS

/-- One row of `aggregateProductSales`'s `$project` stage: a per-line-item
sale record `{date, quantity, price, promotion}`. -/
structure SaleEntry where
  date : ℕ
  quantity : ℚ
  price : ℚ
  promotion : Bool
deriving DecidableEq, Repr

/-- One bucket of `buildForecastDataset`: `{date, totalAmount, promotion}`,
with `date` the UTC day key. -/
structure DailyAggregate where
  date : ℕ
  totalAmount : ℚ
  promotion : Bool
deriving DecidableEq, Repr

/-- The dictionary update `acc[dateKey]` inside `buildForecastDataset`'s
reduce: a JS object with string-date keys is an insertion-ordered
association list, so an existing bucket is updated in place and a new
bucket is appended at the end. `Number(q) || 0` and `Number(p) || 0` are
the identity on rationals for this purpose (`0` falls through to `0`). -/
def addEntry : List DailyAggregate → SaleEntry → List DailyAggregate
  | [], e => [{ date := dayKey e.date, totalAmount := e.quantity * e.price,
                promotion := e.promotion }]
  | a :: rest, e =>
    if a.date = dayKey e.date then
      { a with totalAmount := a.totalAmount + e.quantity * e.price,
               promotion := a.promotion || e.promotion } :: rest
    else
      a :: addEntry rest e

/-- The comparator `(a, b) => new Date(a.date) - new Date(b.date)` used by
`buildForecastDataset`: order buckets by ascending day key. -/
def byDate (a b : DailyAggregate) : Prop := a.date ≤ b.date

instance : DecidableRel byDate := fun a b => inferInstanceAs (Decidable (a.date ≤ b.date))

instance : IsTotal DailyAggregate byDate := ⟨fun a b => Nat.le_total a.date b.date⟩

instance : IsTrans DailyAggregate byDate := ⟨fun _ _ _ h1 h2 => Nat.le_trans h1 h2⟩

/-- `buildForecastDataset`: reduce all records into daily buckets, then
`Object.values(dailyBuckets).sort((a, b) => new Date(a.date) - new Date(b.date))`.
The JS comparator sort on the (distinct) day keys is modelled by insertion
sort on `byDate`. -/
def buildForecastDataset (salesEntries : List SaleEntry) : List DailyAggregate :=
  List.insertionSort byDate (salesEntries.foldl addEntry [])

/-- The day keys of a bucket list. -/
def keysOf (l : List DailyAggregate) : List ℕ := l.map (fun a => a.date)

/-- Sum of `quantity × price` over the records of day `k`. -/
def daySum (k : ℕ) (entries : List SaleEntry) : ℚ :=
  ((entries.filter (fun e => dayKey e.date == k)).map (fun e => e.quantity * e.price)).sum

/-- Whether any record of day `k` carries the promotion flag. -/
def dayProm (k : ℕ) (entries : List SaleEntry) : Bool :=
  entries.any (fun e => dayKey e.date == k && e.promotion)

/-- Total amount recorded for day `k` across a bucket list (the bucket
lists built below have at most one bucket per day). -/
def amountAt (k : ℕ) (l : List DailyAggregate) : ℚ :=
  (l.map (fun a => if a.date = k then a.totalAmount else 0)).sum

/-- Promotion flag recorded for day `k` across a bucket list. -/
def promAt (k : ℕ) (l : List DailyAggregate) : Bool :=
  l.any (fun a => a.date == k && a.promotion)

/-- The dataset-preparation checks of `prepareForecastContext` (the
surrounding product lookup and Mongo aggregation are external I/O; the
record list below is the aggregation result for the lookback window):
fewer than `MIN_SALES_RECORDS` raw records, or fewer than
`MIN_SALES_RECORDS` distinct days after aggregation, is an error. -/
def prepareForecastContext (rawSales : List SaleEntry) : Except String (List DailyAggregate) :=
  if rawSales.length < MIN_SALES_RECORDS then
    Except.error "At least 10 sales records are required for this product forecast"
  else
    let salesData := buildForecastDataset rawSales
    if salesData.length < MIN_SALES_RECORDS then
      Except.error "Not enough distinct sales dates to build a reliable forecast"
    else Except.ok salesData

/-- The local helper `avg` inside `determineTrend`:
`arr.reduce((sum, val) => sum + val, 0) / (arr.length || 1)`. -/
def avg (arr : List ℚ) : ℚ :=
  arr.sum / (if arr.length = 0 then 1 else (arr.length : ℚ))

/-- `determineTrend(values)`: fewer than 3 values is "Insufficient data";
otherwise compare the average of the first `half = max(1, ⌊n/2⌋)` values
(`values.slice(0, half)`) with the average of the last `half` values
(`values.slice(-half)`); a zero early average (falsy in JS) is
"Insufficient data"; a relative change above `0.05` is "Rising", below
`-0.05` is "Falling", otherwise "Stable". -/
def determineTrend (values : List ℚ) : String :=
  if values.length < 3 then "Insufficient data"
  else
    let half := max 1 (values.length / 2)
    let earlyAvg := avg (values.take half)
    let lateAvg := avg (values.drop (values.length - half))
    if earlyAvg = 0 then "Insufficient data"
    else if (lateAvg - earlyAvg) / earlyAvg > 1 / 20 then "Rising"
    else if (lateAvg - earlyAvg) / earlyAvg < -(1 / 20) then "Falling"
    else "Stable"

/-- The radicand of `calculateStdDev(values)`: the source returns
`Math.sqrt(Math.max(variance, 0))` where `variance` is the population
variance. `Real.sqrt` is noncomputable and strictly monotone on
nonnegative arguments, so equalities between the source's volatilities
correspond exactly to equalities between these radicands, which is all the
claims below need. -/
def calculateStdDevSq (values : List ℚ) : ℚ :=
  if values.length = 0 then 0
  else
    let mean := values.sum / (values.length : ℚ)
    max ((values.map (fun v => (v - mean) ^ 2)).sum / (values.length : ℚ)) 0

/-- `monthsBetween(start, end)` on day keys: `(end − start) / 30` days,
floored at one month. (The source's `!start || !end` guard is dead code:
a JS `Date` object is always truthy.) -/
def monthsBetween (startDay endDay : ℕ) : ℚ :=
  max (((endDay : ℚ) - (startDay : ℚ)) / 30) 1

/-- `describeBehaviour(frequency, repeatRate)`. A rational frequency is
always finite, so `!Number.isFinite(frequency)` cannot fire here. -/
def describeBehaviour (frequency repeatRate : ℚ) : String :=
  if frequency ≤ 0 then "Insufficient data"
  else
    let label :=
      if frequency < 1 / 2 then "Infrequent buyers"
      else if frequency ≥ 2 then "High-frequency buyers"
      else "Regular buyers"
    if repeatRate ≥ 3 / 5 then label ++ " (loyal)"
    else if repeatRate ≤ 1 / 5 then label ++ " (occasional)"
    else label

/-- `totalUnits` in `computeInsights` (the `Number(...) || 0` coercion is
the identity on rationals). -/
def totalUnits (salesEntries : List SaleEntry) : ℚ :=
  (salesEntries.map (fun e => e.quantity)).sum

/-- `totalRevenue` in `computeInsights`. -/
def totalRevenue (salesEntries : List SaleEntry) : ℚ :=
  (salesEntries.map (fun e => e.quantity * e.price)).sum

/-- `pricePoints` in `computeInsights`: unit prices, in input order,
restricted to finite positive values. -/
def pricePoints (salesEntries : List SaleEntry) : List ℚ :=
  (salesEntries.map (fun e => e.price)).filter (fun p => 0 < p)

/-- `uniqueDates` in `computeInsights`: the distinct UTC day keys sorted
ascending (`Array.from(new Set(...)).map(...).sort((a, b) => a - b)`; the
final numeric sort makes the set's insertion order irrelevant). -/
def uniqueDates (salesEntries : List SaleEntry) : List ℕ :=
  List.insertionSort (fun a b => a ≤ b)
    ((salesEntries.map (fun e => dayKey e.date)).dedup)

/-- `intervals` in `computeInsights`: gaps in days between consecutive
unique dates (empty when fewer than two unique dates, exactly as in the
source's `uniqueDates.length > 1` guard). -/
def dayGaps : List ℕ → List ℚ
  | a :: b :: rest => ((b : ℚ) - (a : ℚ)) :: dayGaps (b :: rest)
  | _ => []

/-- The `price` half of the insights object. `volatility` stores the
radicand of the source's standard deviation (see `calculateStdDevSq`). -/
structure PriceStats where
  average : ℚ
  min : ℚ
  max : ℚ
  volatility : ℚ
  trend : String
deriving DecidableEq, Repr

/-- The `demand` half of the insights object. -/
structure DemandStats where
  totalUnits : ℚ
  totalRevenue : ℚ
  avgQuantityPerOrder : ℚ
  avgPurchaseIntervalDays : ℚ
  purchaseFrequencyPerMonth : ℚ
  repeatPurchaseRate : ℚ
  purchaseCount : ℕ
  lastPurchaseDate : Option ℕ
  behaviourLabel : String
deriving DecidableEq, Repr

/-- The full insights object. -/
structure Insights where
  price : PriceStats
  demand : DemandStats
deriving DecidableEq, Repr

/-- `computeInsights(salesEntries)`, following the source line by line. -/
def computeInsights (salesEntries : List SaleEntry) : Insights :=
  if salesEntries.isEmpty then
    { price := { average := 0, min := 0, max := 0, volatility := 0,
                 trend := "Insufficient data" },
      demand := { totalUnits := 0, totalRevenue := 0, avgQuantityPerOrder := 0,
                  avgPurchaseIntervalDays := 0, purchaseFrequencyPerMonth := 0,
                  repeatPurchaseRate := 0, purchaseCount := 0,
                  lastPurchaseDate := none, behaviourLabel := "Insufficient data" } }
  else
    let tu := totalUnits salesEntries
    let tr := totalRevenue salesEntries
    let pp := pricePoints salesEntries
    let ud := uniqueDates salesEntries
    let iv := dayGaps ud
    let avgPurchaseIntervalDays := if iv.length = 0 then 0 else iv.sum / (iv.length : ℚ)
    let purchaseFrequencyPerMonth :=
      if 1 < ud.length then (ud.length : ℚ) / monthsBetween (ud.headD 0) (ud.getLastD 0)
      else (ud.length : ℚ)
    let repeatPurchaseRate :=
      if iv.length = 0 then 0
      else ((iv.filter (fun gap => gap ≤ 30)).length : ℚ) / (iv.length : ℚ)
    let avgQuantityPerOrder := if ud.length = 0 then tu else tu / (ud.length : ℚ)
    { price := { average := if tu = 0 then 0 else tr / tu,
                 min := (pp.min?).getD 0,
                 max := (pp.max?).getD 0,
                 volatility := calculateStdDevSq pp,
                 trend := determineTrend pp },
      demand := { totalUnits := tu, totalRevenue := tr, avgQuantityPerOrder,
                  avgPurchaseIntervalDays, purchaseFrequencyPerMonth,
                  repeatPurchaseRate, purchaseCount := ud.length,
                  lastPurchaseDate := ud.getLast?,
                  behaviourLabel := describeBehaviour purchaseFrequencyPerMonth
                    repeatPurchaseRate } }

/-- `clamp(value, min, max)` from the controller; on rationals the
`Number.isFinite` guards are always true. The lower bound is checked
first. -/
def clamp (value mn mx : ℚ) : ℚ :=
  if value < mn then mn
  else if value > mx then mx
  else value

/-- One entry of the Python result's `predictions` array, as seen by
`generateForecast` / `generateBatchForecasts` / `retrainForecast` before
formatting. `dateValid` is whether `new Date(pred.date)` is a valid date;
the numeric fields are `none` when missing (i.e. when `Number(...)` would
give `NaN`). -/
structure RawPrediction where
  dateValid : Bool
  predictedSales : Option ℚ
  confidenceLevel : Option ℚ
  confidenceUpper : Option ℚ
  confidenceLower : Option ℚ
deriving DecidableEq, Repr

/-- A formatted prediction as stored on the `Forecast` document (the date
itself is irrelevant to the numeric claims and omitted). -/
structure PredictionOut where
  predictedSales : ℚ
  confidenceLevel : ℚ
  confidenceUpper : ℚ
  confidenceLower : ℚ
deriving DecidableEq, Repr

/-- The `formattedPredictions` mapper shared verbatim by `generateForecast`,
`generateBatchForecasts` and `retrainForecast`: an invalid date throws
(modelled by `none`); otherwise
`predictedSales = Number(pred.predictedSales) || 0`,
`confidenceLevel = Number(pred.confidenceLevel) || 0`,
`confidenceUpper = Number(pred.confidenceUpper) || predictedSales * 1.1`,
`confidenceLower = Number(pred.confidenceLower) || predictedSales * 0.9`. -/
def formatPrediction (p : RawPrediction) : Option PredictionOut :=
  if p.dateValid then
    let s := numOr p.predictedSales 0
    some { predictedSales := s,
           confidenceLevel := numOr p.confidenceLevel 0,
           confidenceUpper := numOr p.confidenceUpper (s * (11 / 10)),
           confidenceLower := numOr p.confidenceLower (s * (9 / 10)) }
  else none

/-- The per-prediction constraints of `forecastSchema.predictions` in
`models/Forecast.js`, enforced by mongoose validation when the document is
saved: `predictedSales ≥ 0`, `0 ≤ confidenceLevel ≤ 100`,
`confidenceUpper ≥ 0`, `confidenceLower ≥ 0`. -/
def predictionSchemaValid (p : PredictionOut) : Bool :=
  (0 ≤ p.predictedSales) && (0 ≤ p.confidenceLevel) &&
    (p.confidenceLevel ≤ 100) && (0 ≤ p.confidenceUpper) && (0 ≤ p.confidenceLower)

/-- The predictions stored by a successful `generateForecast` (and the
identical code in `generateBatchForecasts` / `retrainForecast`): the run
fails when `result.predictions` is empty, when any prediction date is
invalid (the mapper throws), or when mongoose validation rejects the
document on `save()`; otherwise the formatted list is stored as-is. -/
def generateForecastPredictions (raws : List RawPrediction) : Option (List PredictionOut) :=
  if raws.isEmpty then none
  else
    match raws.mapM formatPrediction with
    | none => none
    | some ps => if ps.all predictionSchemaValid then some ps else none

/-- The `alert` subdocument built by all three forecast endpoints. -/
structure ForecastAlert where
  isActive : Bool
  message : String
deriving DecidableEq, Repr

/-- The `metrics` subdocument built by all three forecast endpoints. -/
structure ForecastMetrics where
  rmse : ℚ
  mae : ℚ
  mape : ℚ
deriving DecidableEq, Repr

/-- `alert: { isActive: (Number(result.metrics?.mape) || 0) > 20, message: ... }`
from `generateForecast` (identical in the batch and retrain endpoints). -/
def mkForecastAlert (mape : Option ℚ) : ForecastAlert :=
  { isActive := decide (numOr mape 0 > 20),
    message := if numOr mape 0 > 20 then "High prediction error" else "" }

/-- `metrics: { rmse: Number(...) || 0, mae: ..., mape: ... }` from
`generateForecast` (identical in the batch and retrain endpoints). -/
def mkForecastMetrics (rmse mae mape : Option ℚ) : ForecastMetrics :=
  { rmse := numOr rmse 0, mae := numOr mae 0, mape := numOr mape 0 }

/-- A product row as used by `generateBatchForecasts` (`Product.find`). -/
structure BatchProduct where
  pid : ℕ
  name : String
  category : Option String
deriving DecidableEq, Repr

/-- One entry of the `failures` list of a batch run:
`{productId, name, category: product.category || "Uncategorized", error}`. -/
structure BatchFailure where
  productId : ℕ
  name : String
  category : String
  error : String
deriving DecidableEq, Repr

/-- The batch response
`{totalProducts, successfulForecasts, failures, forecasts}`. -/
structure BatchSummary (F : Type) where
  totalProducts : ℕ
  successfulForecasts : ℕ
  failures : List BatchFailure
  forecasts : List F
deriving DecidableEq, Repr

/-- The failure entry pushed by `generateBatchForecasts`'s catch block:
`{productId, name, category: product.category || "Uncategorized", error}`. -/
def mkBatchFailure (p : BatchProduct) (e : String) : BatchFailure :=
  { productId := p.pid, name := p.name,
    category := p.category.getD "Uncategorized", error := e }

/-- The body of the per-product loop of `generateBatchForecasts`: a
successful run appends the saved forecast to `createdForecasts`, any
thrown error is caught and appended to `failures` with the product's id,
name, category (defaulted to "Uncategorized") and error message. -/
def batchStep {F : Type} (run : BatchProduct → Except String F)
    (st : List F × List BatchFailure) (p : BatchProduct) :
    List F × List BatchFailure :=
  match run p with
  | Except.ok f => (st.1 ++ [f], st.2)
  | Except.error e => (st.1, st.2 ++ [mkBatchFailure p e])

/-- `generateBatchForecasts` after input validation, parameterised by the
per-product pipeline `run` (dataset preparation + Python model + save):
process every product independently and report
`totalProducts`, `successfulForecasts`, `failures` and the saved
forecasts. -/
def generateBatchForecasts {F : Type} (run : BatchProduct → Except String F)
    (products : List BatchProduct) : BatchSummary F :=
  let st := products.foldl (batchStep run) ([], [])
  { totalProducts := products.length, successfulForecasts := st.1.length,
    failures := st.2, forecasts := st.1 }

/-- The `insights.demand` fields read by `predictPrice`; a missing field
behaves like `0` in every guard the source applies to it. -/
structure DemandInsightsDoc where
  totalUnits : ℚ
  purchaseCount : ℚ
deriving DecidableEq, Repr

/-- The `insights.price` fields read by `predictPrice`; a missing field
behaves like `0` in the truthiness guards the source applies. -/
structure PriceInsightsDoc where
  min : ℚ
  max : ℚ
deriving DecidableEq, Repr

/-- The slice of a stored `Forecast` document that `predictPrice` reads. -/
structure ForecastDocLite where
  predictions : List PredictionOut
  demandInsights : DemandInsightsDoc
  priceInsights : PriceInsightsDoc
deriving DecidableEq, Repr

/-- The `priceBand` of a price recommendation. -/
structure PriceBand where
  min : ℚ
  max : ℚ
deriving DecidableEq, Repr

/-- The fields of `predictPrice`'s JSON response used by the claims. -/
structure PriceRecommendation where
  recommendedPrice : ℚ
  priceBand : PriceBand
  expectedMarginPerUnit : ℚ
  demandRatio : ℚ
  avgForecastDemand : ℚ
  historicalAvgUnits : ℚ
deriving DecidableEq, Repr

/-- `predictPrice` for a given unit cost, profit margin and latest stored
forecast (the Mongo lookup of that forecast is external I/O). -/
def predictPrice (cost margin : ℚ) (forecast : ForecastDocLite) :
    Except String PriceRecommendation :=
  if ¬ (0 < cost) then Except.error "initialCost must be a positive number"
  else if margin < 0 then Except.error "profitMargin must be zero or a positive number"
  else if forecast.predictions.isEmpty then
    Except.error "Forecast does not contain prediction data"
  else
    let avgForecastDemand :=
      ((forecast.predictions.map (fun p => p.predictedSales)).sum) /
        (forecast.predictions.length : ℚ)
    let historicalAvgUnits :=
      if forecast.demandInsights.purchaseCount > 0 then
        forecast.demandInsights.totalUnits / forecast.demandInsights.purchaseCount
      else if avgForecastDemand = 0 then 1 else avgForecastDemand
    let demandRatio := if historicalAvgUnits > 0 then avgForecastDemand / historicalAvgUnits else 1
    let basePrice := cost * (1 + margin / 100)
    let adjustmentRatio := clamp (1 + (demandRatio - 1) * (1 / 2)) (4 / 5) (6 / 5)
    let rawRecommendation := basePrice * adjustmentRatio
    let minBand :=
      if forecast.priceInsights.min ≠ 0 then
        max (forecast.priceInsights.min * (19 / 20)) (cost * (101 / 100))
      else cost * (21 / 20)
    let maxBand :=
      if forecast.priceInsights.max ≠ 0 then forecast.priceInsights.max * (11 / 10)
      else rawRecommendation * (6 / 5)
    let recommendedPrice := clamp rawRecommendation minBand maxBand
    Except.ok { recommendedPrice, priceBand := { min := minBand, max := maxBand },
                expectedMarginPerUnit := recommendedPrice - cost,
                demandRatio, avgForecastDemand, historicalAvgUnits }

/-! Concrete inputs used by counterexamples and witnesses. -/

/-- A Python prediction whose bounds do not bracket the point estimate:
`predictedSales = 10` with `confidenceUpper = 5`, `confidenceLower = 1`. -/
def badRawPrediction : RawPrediction :=
  { dateValid := true, predictedSales := some 10, confidenceLevel := some 80,
    confidenceUpper := some 5, confidenceLower := some 1 }

/-- The prediction that `generateForecast` stores for `badRawPrediction`. -/
def badStoredPrediction : PredictionOut :=
  { predictedSales := 10, confidenceLevel := 80, confidenceUpper := 5, confidenceLower := 1 }

/-- A well-formed Python prediction used to exercise the amended C1. -/
def goodRawPrediction : RawPrediction :=
  { dateValid := true, predictedSales := some 10, confidenceLevel := some 80,
    confidenceUpper := some 12, confidenceLower := some 9 }

/-- The prediction list that `generateForecast` stores for
`goodRawPrediction`. -/
def goodStoredPredictions : List PredictionOut :=
  [{ predictedSales := 10, confidenceLevel := 80, confidenceUpper := 12, confidenceLower := 9 }]

/-- Twelve line items all dated on the same UTC calendar day. -/
def singleDaySales : List SaleEntry :=
  (List.range 12).map (fun i => { date := i, quantity := 1, price := 1, promotion := false })

/-- Three line items spanning two UTC days (two of them on day 0). -/
def twoDaySales : List SaleEntry :=
  [{ date := 0, quantity := 2, price := 3, promotion := false },
   { date := DAY_IN_MS, quantity := 1, price := 5, promotion := true },
   { date := 1, quantity := 1, price := 4, promotion := true }]

/-- The day-0 bucket that `buildForecastDataset` produces for
`twoDaySales`: revenue `2·3 + 1·4 = 10` and promotion `false ∨ true`. -/
def dayZeroBucket : DailyAggregate :=
  { date := 0, totalAmount := 10, promotion := true }

/-- Day 0, unit price 1. -/
def insightEntryA : SaleEntry :=
  { date := 0, quantity := 1, price := 1, promotion := false }

/-- Day 1, unit price 1. -/
def insightEntryB : SaleEntry :=
  { date := DAY_IN_MS, quantity := 1, price := 1, promotion := false }

/-- Day 2, unit price 2. -/
def insightEntryC : SaleEntry :=
  { date := 2 * DAY_IN_MS, quantity := 1, price := 2, promotion := false }

/-- A stored prediction with `predictedSales = 5`. -/
def fivePrediction : PredictionOut :=
  { predictedSales := 5, confidenceLevel := 90, confidenceUpper := 6, confidenceLower := 4 }

/-- A stored forecast with one prediction of 5 units and no usable
history, so `predictPrice` derives `demandRatio = 1` from it. -/
def forecastDocUnitRatio : ForecastDocLite :=
  { predictions := [fivePrediction],
    demandInsights := { totalUnits := 0, purchaseCount := 0 },
    priceInsights := { min := 0, max := 0 } }

/-- What `predictPrice 10 20` answers on `forecastDocUnitRatio`:
`basePrice = 12`, `adjustmentRatio = 1`, band `[10.5, 14.4]`. -/
def recommendationAt12 : PriceRecommendation :=
  { recommendedPrice := 12, priceBand := { min := 21 / 2, max := 72 / 5 },
    expectedMarginPerUnit := 2, demandRatio := 1,
    avgForecastDemand := 5, historicalAvgUnits := 5 }

/-- A stored forecast with historical prices far below cost: price band
min `max(1·0.95, cost·1.01)` exceeds band max `2·1.1`. -/
def forecastDocLowBand : ForecastDocLite :=
  { predictions := [fivePrediction],
    demandInsights := { totalUnits := 0, purchaseCount := 0 },
    priceInsights := { min := 1, max := 2 } }

/-- What `predictPrice 100 50` answers on `forecastDocLowBand`: the raw
recommendation 150 is not below the band minimum 101, so the upper check
fires and the result is the band maximum `2.2 < 101`. -/
def recommendationLowBand : PriceRecommendation :=
  { recommendedPrice := 11 / 5, priceBand := { min := 101, max := 11 / 5 },
    expectedMarginPerUnit := 11 / 5 - 100, demandRatio := 1,
    avgForecastDemand := 5, historicalAvgUnits := 5 }

/-- What `predictPrice 100 0` answers on `forecastDocLowBand`: the raw
recommendation 100 is below the band minimum 101, so the result is the
band minimum, above the band maximum `2.2`. -/
def recommendationMin101 : PriceRecommendation :=
  { recommendedPrice := 101, priceBand := { min := 101, max := 11 / 5 },
    expectedMarginPerUnit := 1, demandRatio := 1,
    avgForecastDemand := 5, historicalAvgUnits := 5 }

end SaleForecast

namespace SaleForecast

/-- An `Option.mapM` over a list that succeeds returns a list of the same
length. -/
theorem length_of_mapM_eq_some {α β : Type} (f : α → Option β) :
    ∀ {l : List α} {res : List β}, l.mapM f = some res → res.length = l.length := by
  intro l
  induction l with
  | nil =>
    intro res h
    simp only [List.mapM_nil, pure, Option.some.injEq] at h
    simp [← h]
  | cons a t ih =>
    intro res h
    rw [List.mapM_cons] at h
    cases hfa : f a with
    | none => rw [hfa] at h; simp at h
    | some b =>
      rw [hfa] at h
      cases hmt : t.mapM f with
      | none => rw [hmt] at h; simp at h
      | some bs =>
        rw [hmt] at h
        simp only [Option.bind_eq_bind, Option.some_bind, pure, Option.some.injEq] at h
        subst h
        simp [ih hmt]

/-- C5: a stored Forecast has `alert.isActive = true` and
`alert.message = "High prediction error"` exactly when its stored
`metrics.mape` exceeds 20; in particular `mape = 25` yields an active alert
and `mape = 15` an inactive alert with an empty message. -/
theorem forecastAlert_mape_rule :
    (∀ rmse mae mape : Option ℚ,
      ((mkForecastAlert mape).isActive = true ∧
        (mkForecastAlert mape).message = "High prediction error") ↔
        (mkForecastMetrics rmse mae mape).mape > 20) ∧
    mkForecastAlert (some 25) = { isActive := true, message := "High prediction error" } ∧
    mkForecastAlert (some 15) = { isActive := false, message := "" } := by
  refine ⟨fun rmse mae mape => ?_, ?_, ?_⟩
  · by_cases h : numOr mape 0 > 20 <;>
      simp [mkForecastAlert, mkForecastMetrics, h]
  · have h : numOr (some 25) 0 = 25 := by norm_num [numOr]
    simp [mkForecastAlert, h]
    norm_num
  · have h : numOr (some 15) 0 = 15 := by norm_num [numOr]
    simp [mkForecastAlert, h]
    norm_num

/-- C6: when a model's returned prediction is missing its confidence
bounds, the stored prediction falls back to
`confidenceUpper = predictedSales * 1.1` and
`confidenceLower = predictedSales * 0.9`. -/
theorem formatPrediction_bounds_fallback :
    ∀ s l : Option ℚ, ∃ p : PredictionOut,
      formatPrediction { dateValid := true, predictedSales := s,
                         confidenceLevel := l, confidenceUpper := none,
                         confidenceLower := none } = some p ∧
      p.confidenceUpper = p.predictedSales * (11 / 10) ∧
      p.confidenceLower = p.predictedSales * (9 / 10) := by
  intro s l
  refine ⟨_, rfl, ?_, ?_⟩ <;> rfl

/-- Counterexample to C1: the endpoints store model-supplied bounds
unchecked, and the mongoose schema only requires them to be nonnegative,
so a prediction with `confidenceUpper = 5 < 10 = predictedSales` is stored
as-is. -/
theorem storedPrediction_bounds_not_bracketing :
    generateForecastPredictions [badRawPrediction] = some [badStoredPrediction] ∧
    badStoredPrediction.confidenceUpper < badStoredPrediction.predictedSales := by
  constructor
  · decide
  · decide

/-- C1 (amended): every stored prediction list is non-empty and each
element satisfies the schema constraints `predictedSales ≥ 0`,
`confidenceLevel ∈ [0, 100]`, `confidenceUpper ≥ 0`, `confidenceLower ≥ 0`;
the bounds are not forced to bracket `predictedSales` (they do only in the
fallback case of C6). -/
theorem storedPredictions_schema_invariants (raws : List RawPrediction)
    (ps : List PredictionOut) (h : generateForecastPredictions raws = some ps) :
    ps ≠ [] ∧ ∀ p ∈ ps, 0 ≤ p.predictedSales ∧ 0 ≤ p.confidenceLevel ∧
      p.confidenceLevel ≤ 100 ∧ 0 ≤ p.confidenceUpper ∧ 0 ≤ p.confidenceLower := by
  by_cases he : raws.isEmpty
  · rw [generateForecastPredictions, if_pos he] at h
    exact absurd h (by simp)
  · rw [generateForecastPredictions, if_neg he] at h
    split at h
    · exact absurd h (by simp)
    · rename_i qs hm
      split at h
      · rename_i hv
        have hqs : qs = ps := by injection h
        subst hqs
        constructor
        · have hlen := length_of_mapM_eq_some formatPrediction hm
          intro hnil
          rw [hnil] at hlen
          simp only [List.length_nil] at hlen
          exact he (by
            rw [List.isEmpty_iff]
            exact List.length_eq_zero.mp hlen.symm)
        · intro p hp
          have hval := List.all_eq_true.mp hv p hp
          simp only [predictionSchemaValid, Bool.and_eq_true, decide_eq_true_eq] at hval
          exact ⟨hval.1.1.1.1, hval.1.1.1.2, hval.1.1.2, hval.1.2, hval.2⟩
      · exact absurd h (by simp)

/-- Witness for the amended C1 at a concrete stored forecast. -/
theorem storedPredictions_schema_invariants_witness :
    goodStoredPredictions ≠ [] ∧
    ∀ p ∈ goodStoredPredictions,
      0 ≤ p.predictedSales ∧ 0 ≤ p.confidenceLevel ∧
      p.confidenceLevel ≤ 100 ∧ 0 ≤ p.confidenceUpper ∧ 0 ≤ p.confidenceLower :=
  storedPredictions_schema_invariants [goodRawPrediction] goodStoredPredictions (by decide)

/-- Unfolding `amountAt` over a cons. -/
theorem amountAt_cons (a : DailyAggregate) (l : List DailyAggregate) (k : ℕ) :
    amountAt k (a :: l) = (if a.date = k then a.totalAmount else 0) + amountAt k l := by
  simp [amountAt]

/-- Unfolding `promAt` over a cons. -/
theorem promAt_cons (a : DailyAggregate) (l : List DailyAggregate) (k : ℕ) :
    promAt k (a :: l) = (((a.date == k) && a.promotion) || promAt k l) := by
  simp [promAt]

/-- Unfolding `addEntry` when the head bucket matches the entry's day. -/
theorem addEntry_cons_pos (a : DailyAggregate) (rest : List DailyAggregate)
    (e : SaleEntry) (h : a.date = dayKey e.date) :
    addEntry (a :: rest) e =
      { a with totalAmount := a.totalAmount + e.quantity * e.price,
               promotion := a.promotion || e.promotion } :: rest := by
  simp only [addEntry]
  rw [if_pos h]

/-- Unfolding `addEntry` when the head bucket does not match. -/
theorem addEntry_cons_neg (a : DailyAggregate) (rest : List DailyAggregate)
    (e : SaleEntry) (h : ¬ a.date = dayKey e.date) :
    addEntry (a :: rest) e = a :: addEntry rest e := by
  simp only [addEntry]
  rw [if_neg h]

/-- Day-key membership after a single dictionary update. -/
theorem mem_keysOf_addEntry (acc : List DailyAggregate) (e : SaleEntry) (k : ℕ) :
    k ∈ keysOf (addEntry acc e) ↔ k ∈ keysOf acc ∨ k = dayKey e.date := by
  induction acc with
  | nil => simp [addEntry, keysOf]
  | cons a rest ih =>
    by_cases h : a.date = dayKey e.date
    · rw [addEntry_cons_pos a rest e h]
      simp only [keysOf, List.map_cons, List.mem_cons]
      constructor
      · exact Or.inl
      · rintro (hx | hx)
        · exact hx
        · exact Or.inl (hx.trans h.symm)
    · rw [addEntry_cons_neg a rest e h]
      simp only [keysOf, List.map_cons, List.mem_cons]
      simp only [keysOf] at ih
      rw [ih]
      tauto

/-- A dictionary update preserves distinctness of the day keys. -/
theorem nodup_keysOf_addEntry (acc : List DailyAggregate) (e : SaleEntry)
    (h : (keysOf acc).Nodup) : (keysOf (addEntry acc e)).Nodup := by
  induction acc with
  | nil => simp [addEntry, keysOf]
  | cons a rest ih =>
    simp only [keysOf, List.map_cons, List.nodup_cons] at h
    by_cases h1 : a.date = dayKey e.date
    · rw [addEntry_cons_pos a rest e h1]
      simp only [keysOf, List.map_cons, List.nodup_cons]
      exact ⟨h.1, h.2⟩
    · rw [addEntry_cons_neg a rest e h1]
      simp only [keysOf, List.map_cons, List.nodup_cons]
      refine ⟨?_, ih h.2⟩
      rw [show (addEntry rest e).map (fun a => a.date) = keysOf (addEntry rest e) from rfl,
        mem_keysOf_addEntry]
      push_neg
      exact ⟨by simpa [keysOf] using h.1, h1⟩

/-- A dictionary update adds the entry's revenue to exactly its own day. -/
theorem amountAt_addEntry (acc : List DailyAggregate) (e : SaleEntry) (k : ℕ) :
    amountAt k (addEntry acc e) =
      amountAt k acc + (if dayKey e.date = k then e.quantity * e.price else 0) := by
  induction acc with
  | nil =>
    simp only [addEntry, amountAt, List.map_cons, List.map_nil, List.sum_cons, List.sum_nil]
    ring
  | cons a rest ih =>
    by_cases h : a.date = dayKey e.date
    · rw [addEntry_cons_pos a rest e h]
      simp only [amountAt_cons]
      by_cases hk : a.date = k
      · rw [if_pos hk, if_pos hk, if_pos (h.symm.trans hk)]
        ring
      · rw [if_neg hk, if_neg hk, if_neg (fun hc => hk (h.trans hc))]
        ring
    · rw [addEntry_cons_neg a rest e h]
      simp only [amountAt_cons, ih]
      ring

/-- A dictionary update ORs the entry's promotion flag into exactly its
own day. -/
theorem promAt_addEntry (acc : List DailyAggregate) (e : SaleEntry) (k : ℕ) :
    promAt k (addEntry acc e) =
      (promAt k acc || ((dayKey e.date == k) && e.promotion)) := by
  induction acc with
  | nil =>
    rw [Bool.eq_iff_iff]
    simp [addEntry, promAt]
  | cons a rest ih =>
    by_cases h : a.date = dayKey e.date
    · rw [addEntry_cons_pos a rest e h, promAt_cons, promAt_cons, Bool.eq_iff_iff]
      simp only [Bool.or_eq_true, Bool.and_eq_true, beq_iff_eq, h]
      tauto
    · rw [addEntry_cons_neg a rest e h, promAt_cons, promAt_cons, ih, Bool.or_assoc]

/-- Day-key membership after folding a record list into the dictionary. -/
theorem mem_keysOf_foldl (entries : List SaleEntry) :
    ∀ (acc : List DailyAggregate) (k : ℕ),
      k ∈ keysOf (entries.foldl addEntry acc) ↔
        k ∈ keysOf acc ∨ k ∈ entries.map (fun e => dayKey e.date) := by
  induction entries with
  | nil => intro acc k; simp
  | cons e t ih =>
    intro acc k
    rw [List.foldl_cons, ih, mem_keysOf_addEntry]
    simp only [List.map_cons, List.mem_cons]
    tauto

/-- Folding a record list keeps the day keys distinct. -/
theorem nodup_keysOf_foldl (entries : List SaleEntry) :
    ∀ acc : List DailyAggregate,
      (keysOf acc).Nodup → (keysOf (entries.foldl addEntry acc)).Nodup := by
  induction entries with
  | nil => intro acc h; exact h
  | cons e t ih => intro acc h; exact ih _ (nodup_keysOf_addEntry _ _ h)

/-- Each day's total after the fold is the accumulator's total plus that
day's revenue over the folded records. -/
theorem amountAt_foldl (entries : List SaleEntry) :
    ∀ (acc : List DailyAggregate) (k : ℕ),
      amountAt k (entries.foldl addEntry acc) =
        amountAt k acc +
          (entries.map (fun e => if dayKey e.date = k then e.quantity * e.price else 0)).sum := by
  induction entries with
  | nil => intro acc k; simp
  | cons e t ih =>
    intro acc k
    rw [List.foldl_cons, ih, amountAt_addEntry]
    simp only [List.map_cons, List.sum_cons]
    ring

/-- Each day's promotion flag after the fold is the accumulator's flag
ORed with that day's flag over the folded records. -/
theorem promAt_foldl (entries : List SaleEntry) :
    ∀ (acc : List DailyAggregate) (k : ℕ),
      promAt k (entries.foldl addEntry acc) = (promAt k acc || dayProm k entries) := by
  induction entries with
  | nil => intro acc k; simp [dayProm]
  | cons e t ih =>
    intro acc k
    rw [List.foldl_cons, ih, promAt_addEntry, Bool.eq_iff_iff]
    simp only [dayProm, List.any_cons, Bool.or_eq_true]
    tauto

/-- `daySum` as a sum of per-record contributions. -/
theorem daySum_eq_sum_ite (k : ℕ) (entries : List SaleEntry) :
    daySum k entries =
      (entries.map (fun e => if dayKey e.date = k then e.quantity * e.price else 0)).sum := by
  induction entries with
  | nil => rfl
  | cons e t ih =>
    by_cases h : dayKey e.date = k
    · simp [daySum, List.filter_cons, h] at ih ⊢
      exact ih
    · simp [daySum, List.filter_cons, h] at ih ⊢
      exact ih

/-- A day absent from the bucket list has amount 0. -/
theorem amountAt_eq_zero (k : ℕ) (l : List DailyAggregate) (h : k ∉ keysOf l) :
    amountAt k l = 0 := by
  induction l with
  | nil => rfl
  | cons a t ih =>
    simp only [keysOf, List.map_cons, List.mem_cons] at h
    push_neg at h
    rw [amountAt_cons, if_neg (fun hc => h.1 hc.symm), ih (by simpa [keysOf] using h.2)]
    ring

/-- A day absent from the bucket list has promotion flag `false`. -/
theorem promAt_eq_false (k : ℕ) (l : List DailyAggregate) (h : k ∉ keysOf l) :
    promAt k l = false := by
  induction l with
  | nil => rfl
  | cons a t ih =>
    simp only [keysOf, List.map_cons, List.mem_cons] at h
    push_neg at h
    rw [promAt_cons, ih (by simpa [keysOf] using h.2), Bool.or_false]
    apply Bool.eq_false_iff.mpr
    intro hc
    rw [Bool.and_eq_true, beq_iff_eq] at hc
    exact h.1 hc.1.symm

/-- With distinct day keys, a bucket's amount is the amount recorded for
its day. -/
theorem amountAt_of_mem (l : List DailyAggregate) (a : DailyAggregate)
    (hn : (keysOf l).Nodup) (ha : a ∈ l) : amountAt a.date l = a.totalAmount := by
  induction l with
  | nil => cases ha
  | cons b t ih =>
    simp only [keysOf, List.map_cons, List.nodup_cons] at hn
    rcases List.mem_cons.mp ha with hb | ht
    · subst hb
      rw [amountAt_cons, if_pos rfl,
        amountAt_eq_zero _ _ (by simpa [keysOf] using hn.1)]
      ring
    · have hne : b.date ≠ a.date := by
        intro hc
        exact hn.1 (hc ▸ (by simpa [keysOf] using List.mem_map_of_mem (fun x => x.date) ht))
      rw [amountAt_cons, if_neg hne, ih (by simpa [keysOf] using hn.2) ht]
      ring

/-- With distinct day keys, a bucket's promotion flag is the flag recorded
for its day. -/
theorem promAt_of_mem (l : List DailyAggregate) (a : DailyAggregate)
    (hn : (keysOf l).Nodup) (ha : a ∈ l) : promAt a.date l = a.promotion := by
  induction l with
  | nil => cases ha
  | cons b t ih =>
    simp only [keysOf, List.map_cons, List.nodup_cons] at hn
    rcases List.mem_cons.mp ha with hb | ht
    · subst hb
      rw [promAt_cons, promAt_eq_false _ _ (by simpa [keysOf] using hn.1), Bool.or_false]
      simp
    · have hne : b.date ≠ a.date := by
        intro hc
        exact hn.1 (hc ▸ (by simpa [keysOf] using List.mem_map_of_mem (fun x => x.date) ht))
      have hb : (b.date == a.date) = false := by
        simpa using hne
      rw [promAt_cons, ih (by simpa [keysOf] using hn.2) ht, hb, Bool.false_and,
        Bool.false_or]

/-- `amountAt` is invariant under permutation of the bucket list. -/
theorem amountAt_perm {l1 l2 : List DailyAggregate} (p : l1.Perm l2) (k : ℕ) :
    amountAt k l1 = amountAt k l2 :=
  (p.map _).sum_eq

/-- `promAt` is invariant under permutation of the bucket list. -/
theorem promAt_perm {l1 l2 : List DailyAggregate} (p : l1.Perm l2) (k : ℕ) :
    promAt k l1 = promAt k l2 := by
  unfold promAt
  rw [Bool.eq_iff_iff]
  simp only [List.any_eq_true]
  constructor
  · rintro ⟨x, hx, hpx⟩
    exact ⟨x, p.mem_iff.mp hx, hpx⟩
  · rintro ⟨x, hx, hpx⟩
    exact ⟨x, p.mem_iff.mpr hx, hpx⟩

/-- The sorted bucket list is a permutation of the folded dictionary. -/
theorem buildForecastDataset_perm (entries : List SaleEntry) :
    (buildForecastDataset entries).Perm (entries.foldl addEntry []) :=
  List.perm_insertionSort _ _

/-- The built dataset has exactly one bucket per day. -/
theorem nodup_keys_build (entries : List SaleEntry) :
    (keysOf (buildForecastDataset entries)).Nodup := by
  have hperm : ((entries.foldl addEntry []).map (fun a : DailyAggregate => a.date)).Perm
      ((buildForecastDataset entries).map (fun a : DailyAggregate => a.date)) :=
    ((buildForecastDataset_perm entries).map (fun a : DailyAggregate => a.date)).symm
  exact hperm.nodup (nodup_keysOf_foldl entries [] (by simp [keysOf]))

/-- The built dataset's days are exactly the days of the input records. -/
theorem mem_keys_build (entries : List SaleEntry) (k : ℕ) :
    k ∈ keysOf (buildForecastDataset entries) ↔
      k ∈ entries.map (fun e => dayKey e.date) := by
  rw [show keysOf (buildForecastDataset entries) =
      (buildForecastDataset entries).map (fun a => a.date) from rfl,
    ((buildForecastDataset_perm entries).map (fun a => a.date)).mem_iff]
  rw [show (entries.foldl addEntry []).map (fun a => a.date) =
      keysOf (entries.foldl addEntry []) from rfl, mem_keysOf_foldl]
  simp [keysOf]

/-- The built dataset is strictly ascending in the day key. -/
theorem sorted_keys_build (entries : List SaleEntry) :
    List.Sorted (fun k1 k2 => k1 < k2) (keysOf (buildForecastDataset entries)) := by
  have hs : List.Sorted byDate (buildForecastDataset entries) :=
    List.sorted_insertionSort byDate (entries.foldl addEntry [])
  have hle : List.Sorted (fun k1 k2 : ℕ => k1 ≤ k2) (keysOf (buildForecastDataset entries)) := by
    rw [keysOf, List.Sorted, List.pairwise_map]
    exact hs
  exact hle.lt_of_le (nodup_keys_build entries)

/-- C3: `buildForecastDataset` produces exactly one aggregate per distinct
UTC calendar day of the input (and no other days — no gap filling), each
day's `totalAmount` is the sum of `quantity × price` over that day's
records, each day's promotion flag is the OR of its records' flags, and
the output is sorted strictly ascending by day. -/
theorem buildForecastDataset_spec (salesEntries : List SaleEntry) :
    (keysOf (buildForecastDataset salesEntries)).Nodup ∧
    (∀ k, k ∈ keysOf (buildForecastDataset salesEntries) ↔
      k ∈ salesEntries.map (fun e => dayKey e.date)) ∧
    (∀ a ∈ buildForecastDataset salesEntries,
      a.totalAmount = daySum a.date salesEntries ∧
      a.promotion = dayProm a.date salesEntries) ∧
    List.Sorted (fun k1 k2 => k1 < k2) (keysOf (buildForecastDataset salesEntries)) := by
  refine ⟨nodup_keys_build salesEntries, mem_keys_build salesEntries, ?_,
    sorted_keys_build salesEntries⟩
  intro a ha
  constructor
  · rw [← amountAt_of_mem _ a (nodup_keys_build salesEntries) ha,
      amountAt_perm (buildForecastDataset_perm salesEntries),
      amountAt_foldl, daySum_eq_sum_ite]
    simp [amountAt]
  · rw [← promAt_of_mem _ a (nodup_keys_build salesEntries) ha,
      promAt_perm (buildForecastDataset_perm salesEntries),
      promAt_foldl]
    simp [promAt]

/-- Witness for C3 at a concrete three-record, two-day input. -/
theorem buildForecastDataset_spec_witness :
    dayZeroBucket.totalAmount = daySum dayZeroBucket.date twoDaySales ∧
    dayZeroBucket.promotion = dayProm dayZeroBucket.date twoDaySales :=
  (buildForecastDataset_spec twoDaySales).2.2.1 dayZeroBucket (by
    have hb : buildForecastDataset twoDaySales =
        [dayZeroBucket, { date := 1, totalAmount := 5, promotion := true }] := by
      norm_num [buildForecastDataset, twoDaySales, addEntry, dayKey, DAY_IN_MS,
        List.insertionSort, List.orderedInsert, byDate, dayZeroBucket]
    rw [hb]
    simp)

/-- The number of buckets is the number of distinct days in the input. -/
theorem length_buildForecastDataset (entries : List SaleEntry) :
    (buildForecastDataset entries).length =
      ((entries.map (fun e => dayKey e.date)).dedup).length := by
  have h1 : (buildForecastDataset entries).length =
      (keysOf (buildForecastDataset entries)).length := by
    simp [keysOf]
  have hperm : (keysOf (buildForecastDataset entries)).Perm
      ((entries.map (fun e => dayKey e.date)).dedup) :=
    (List.perm_ext_iff_of_nodup (nodup_keys_build entries)
      (List.nodup_dedup _)).mpr
      (fun a => by rw [mem_keys_build, List.mem_dedup])
  rw [h1, hperm.length_eq]

/-- C2: the dataset preparation of `prepareForecastContext` fails exactly
when the lookback window holds fewer than 10 raw records or fewer than 10
distinct UTC calendar days; in particular, a single day carrying 12 line
items fails with the distinct-dates error. -/
theorem prepareForecastContext_insufficient_data :
    (∀ rawSales : List SaleEntry,
      (prepareForecastContext rawSales).isOk = false ↔
        (rawSales.length < 10 ∨
          ((rawSales.map (fun e => dayKey e.date)).dedup).length < 10)) ∧
    prepareForecastContext singleDaySales =
      Except.error "Not enough distinct sales dates to build a reliable forecast" := by
  constructor
  · intro rawSales
    rw [prepareForecastContext]
    by_cases h1 : rawSales.length < MIN_SALES_RECORDS
    · rw [if_pos h1]
      simp only [Except.isOk]
      exact ⟨fun _ => Or.inl h1, fun _ => rfl⟩
    · rw [if_neg h1]
      by_cases h2 : (buildForecastDataset rawSales).length < MIN_SALES_RECORDS
      · rw [if_pos h2]
        simp only [Except.isOk]
        rw [length_buildForecastDataset] at h2
        exact ⟨fun _ => Or.inr h2, fun _ => rfl⟩
      · rw [if_neg h2]
        rw [length_buildForecastDataset] at h2
        constructor
        · intro hc
          exact absurd hc (by simp [Except.isOk, Except.toBool])
        · intro hc
          rcases hc with hc | hc
          · exact absurd hc h1
          · exact absurd hc h2
  · have hlen : ¬ singleDaySales.length < MIN_SALES_RECORDS := by decide
    have hbuild : (buildForecastDataset singleDaySales).length = 1 := by
      rw [length_buildForecastDataset]
      decide
    rw [prepareForecastContext, if_neg hlen]
    rw [if_pos (by rw [hbuild]; norm_num [MIN_SALES_RECORDS])]

/-- The accumulator of the batch loop after processing a product list:
successes and failures are appended in order, independently. -/
theorem batch_foldl_spec {F : Type} (run : BatchProduct → Except String F) :
    ∀ (products : List BatchProduct) (st : List F × List BatchFailure),
      (products.foldl (batchStep run) st).1 =
        st.1 ++ products.filterMap (fun p => (run p).toOption) ∧
      (products.foldl (batchStep run) st).2 =
        st.2 ++ products.filterMap (fun p =>
          match run p with
          | Except.error e => some (mkBatchFailure p e)
          | Except.ok _ => none) := by
  intro products
  induction products with
  | nil => intro st; simp
  | cons p t ih =>
    intro st
    rw [List.foldl_cons]
    rcases ih (batchStep run st p) with ⟨ih1, ih2⟩
    cases hr : run p with
    | ok f =>
      refine ⟨?_, ?_⟩
      · rw [ih1]
        simp [batchStep, hr, Except.toOption]
      · rw [ih2]
        simp [batchStep, hr]
    | error e =>
      refine ⟨?_, ?_⟩
      · rw [ih1]
        simp [batchStep, hr, Except.toOption]
      · rw [ih2]
        simp [batchStep, hr]

/-- Every product lands in exactly one of the two outcome lists. -/
theorem batch_counts {F : Type} (run : BatchProduct → Except String F)
    (products : List BatchProduct) :
    (products.filterMap (fun p => (run p).toOption)).length +
      (products.filterMap (fun p =>
        match run p with
        | Except.error e => some (mkBatchFailure p e)
        | Except.ok _ => none)).length = products.length := by
  induction products with
  | nil => simp
  | cons p t ih =>
    cases hr : run p with
    | ok f =>
      simp [hr, Except.toOption] at ih ⊢
      omega
    | error e =>
      simp [hr, Except.toOption] at ih ⊢
      omega

/-- C4: a batch forecast over N products of which M fail per-item never
rejects the whole batch: it reports `totalProducts = N`,
`successfulForecasts = N − M`, and exactly the M failures, each carrying
the product's id, name, category (defaulted to "Uncategorized") and error
message. -/
theorem generateBatchForecasts_partial_success {F : Type}
    (run : BatchProduct → Except String F) (products : List BatchProduct) :
    (generateBatchForecasts run products).totalProducts = products.length ∧
    (generateBatchForecasts run products).failures =
      products.filterMap (fun p =>
        match run p with
        | Except.error e => some (mkBatchFailure p e)
        | Except.ok _ => none) ∧
    (generateBatchForecasts run products).successfulForecasts +
      (generateBatchForecasts run products).failures.length = products.length ∧
    (generateBatchForecasts run products).successfulForecasts =
      products.length - (generateBatchForecasts run products).failures.length := by
  rcases batch_foldl_spec run products ([], []) with ⟨h1, h2⟩
  have hfail : (generateBatchForecasts run products).failures =
      products.filterMap (fun p =>
        match run p with
        | Except.error e => some (mkBatchFailure p e)
        | Except.ok _ => none) := by
    rw [generateBatchForecasts]
    rw [h2]
    simp
  have hsucc : (generateBatchForecasts run products).successfulForecasts =
      (products.filterMap (fun p => (run p).toOption)).length := by
    rw [generateBatchForecasts]
    rw [h1]
    simp
  have hcount := batch_counts run products
  refine ⟨rfl, hfail, ?_, ?_⟩
  · rw [hsucc, hfail]
    exact hcount
  · rw [hsucc, hfail]
    omega

/-- C7: for every price-point set with at least 3 (positive) points the
computed trend is one of Rising/Falling/Stable, obtained by comparing the
mean of the first half of the sequence with the mean of the second half
against a ±5% relative-change threshold; with fewer than 3 points the
trend is "Insufficient data". (Price points are positive by construction:
`computeInsights` filters `price > 0` before calling `determineTrend`.) -/
theorem determineTrend_classification (values : List ℚ) :
    (values.length < 3 → determineTrend values = "Insufficient data") ∧
    (3 ≤ values.length → (∀ x ∈ values, 0 < x) →
      (determineTrend values = "Rising" ∨ determineTrend values = "Falling" ∨
        determineTrend values = "Stable") ∧
      determineTrend values =
        (if (avg (values.drop (values.length - max 1 (values.length / 2))) -
              avg (values.take (max 1 (values.length / 2)))) /
              avg (values.take (max 1 (values.length / 2))) > 1 / 20 then "Rising"
         else if (avg (values.drop (values.length - max 1 (values.length / 2))) -
              avg (values.take (max 1 (values.length / 2)))) /
              avg (values.take (max 1 (values.length / 2))) < -(1 / 20) then "Falling"
         else "Stable")) := by
  constructor
  · intro h
    simp only [determineTrend, if_pos h]
  · intro h3 hpos
    have hne : ¬ values.length < 3 := by omega
    have htpos : 0 < (values.take (max 1 (values.length / 2))).length := by
      rw [List.length_take]
      omega
    have hsum : 0 < (values.take (max 1 (values.length / 2))).sum :=
      List.sum_pos _ (fun x hx => hpos x (List.take_subset _ _ hx))
        (List.length_pos.mp htpos)
    have hepos : 0 < avg (values.take (max 1 (values.length / 2))) := by
      rw [avg, if_neg (by omega : ¬ (values.take (max 1 (values.length / 2))).length = 0)]
      exact div_pos hsum (by exact_mod_cast htpos)
    have hunfold : determineTrend values =
        (if (avg (values.drop (values.length - max 1 (values.length / 2))) -
              avg (values.take (max 1 (values.length / 2)))) /
              avg (values.take (max 1 (values.length / 2))) > 1 / 20 then "Rising"
         else if (avg (values.drop (values.length - max 1 (values.length / 2))) -
              avg (values.take (max 1 (values.length / 2)))) /
              avg (values.take (max 1 (values.length / 2))) < -(1 / 20) then "Falling"
         else "Stable") := by
      simp only [determineTrend, if_neg hne, if_neg (ne_of_gt hepos)]
    refine ⟨?_, hunfold⟩
    rw [hunfold]
    split
    · exact Or.inl rfl
    · split
      · exact Or.inr (Or.inl rfl)
      · exact Or.inr (Or.inr rfl)

/-- Witness for C7: a 2-point series is "Insufficient data", and a
concrete 3-point positive series classifies into one of the three labels. -/
theorem determineTrend_classification_witness :
    determineTrend [(2 : ℚ), 2] = "Insufficient data" ∧
    (determineTrend [(1 : ℚ), 1, 2] = "Rising" ∨ determineTrend [(1 : ℚ), 1, 2] = "Falling" ∨
      determineTrend [(1 : ℚ), 1, 2] = "Stable") :=
  ⟨(determineTrend_classification [2, 2]).1 (by norm_num),
   ((determineTrend_classification [1, 1, 2]).2 (by norm_num) (by decide)).1⟩

/-- `List.min?` only depends on the multiset of elements. -/
theorem min?_perm {l1 l2 : List ℚ} (hp : l1.Perm l2) : l1.min? = l2.min? := by
  induction hp with
  | nil => rfl
  | cons a h ih => rw [List.min?_cons, List.min?_cons, ih]
  | swap a b l =>
    rw [List.min?_cons, List.min?_cons, List.min?_cons, List.min?_cons]
    cases hm : l.min? with
    | none => simp [min_comm]
    | some c => simp [min_comm, min_left_comm]
  | trans h1 h2 ih1 ih2 => rw [ih1, ih2]

/-- `List.max?` only depends on the multiset of elements. -/
theorem max?_perm {l1 l2 : List ℚ} (hp : l1.Perm l2) : l1.max? = l2.max? := by
  induction hp with
  | nil => rfl
  | cons a h ih => rw [List.max?_cons, List.max?_cons, ih]
  | swap a b l =>
    rw [List.max?_cons, List.max?_cons, List.max?_cons, List.max?_cons]
    cases hm : l.max? with
    | none => simp [max_comm]
    | some c => simp [max_comm, max_left_comm]
  | trans h1 h2 ih1 ih2 => rw [ih1, ih2]

/-- The sorted distinct purchase days do not depend on the record order. -/
theorem uniqueDates_perm_eq {l1 l2 : List SaleEntry} (hp : l1.Perm l2) :
    uniqueDates l1 = uniqueDates l2 := by
  have hd : ((l1.map (fun e => dayKey e.date)).dedup).Perm
      ((l2.map (fun e => dayKey e.date)).dedup) :=
    (hp.map (fun e => dayKey e.date)).dedup
  have hchain : (uniqueDates l1).Perm (uniqueDates l2) :=
    ((List.perm_insertionSort _ _).trans hd).trans (List.perm_insertionSort _ _).symm
  exact List.eq_of_perm_of_sorted hchain
    (List.sorted_insertionSort _ _) (List.sorted_insertionSort _ _)

/-- The population variance (the stddev radicand) does not depend on the
order of the values. -/
theorem calculateStdDevSq_perm {l1 l2 : List ℚ} (hp : l1.Perm l2) :
    calculateStdDevSq l1 = calculateStdDevSq l2 := by
  by_cases h : l2.length = 0
  · have h1 : l1.length = 0 := by rw [hp.length_eq, h]
    simp only [calculateStdDevSq]
    rw [if_pos h1, if_pos h]
  · have h1 : ¬ l1.length = 0 := by rw [hp.length_eq]; exact h
    simp only [calculateStdDevSq]
    rw [if_neg h1, if_neg h, hp.length_eq, hp.sum_eq,
      (hp.map (fun v => (v - l2.sum / (l2.length : ℚ)) ^ 2)).sum_eq]

/-- Counterexample to C8: `computeInsights` does not sort the price
sequence before computing the trend, so reordering records changes
`price.trend`: prices seen as `[1, 1, 2]` classify as Rising, the same
records reordered to prices `[2, 1, 1]` classify as Falling. -/
theorem computeInsights_order_dependent :
    ([insightEntryA, insightEntryB, insightEntryC].Perm
      [insightEntryC, insightEntryA, insightEntryB]) ∧
    (computeInsights [insightEntryA, insightEntryB, insightEntryC]).price.trend = "Rising" ∧
    (computeInsights [insightEntryC, insightEntryA, insightEntryB]).price.trend = "Falling" := by
  refine ⟨by decide, ?_, ?_⟩
  · simp only [computeInsights]
    rw [if_neg (by decide)]
    norm_num [pricePoints, insightEntryA, insightEntryB, insightEntryC,
      determineTrend, avg, List.filter_cons]
  · simp only [computeInsights]
    rw [if_neg (by decide)]
    norm_num [pricePoints, insightEntryA, insightEntryB, insightEntryC,
      determineTrend, avg, List.filter_cons]

/-- C8 (amended): `computeInsights` is invariant to the order of its input
records in every derived field except `price.trend` — the whole demand
block (including the sequential statistics `avgPurchaseIntervalDays`,
`purchaseFrequencyPerMonth`, `repeatPurchaseRate`) and the symmetric price
statistics are permutation-invariant; `price.trend` is computed on the
price sequence in input order (the callers pass date-sorted records). -/
theorem computeInsights_perm_invariant (l1 l2 : List SaleEntry) (hp : l1.Perm l2) :
    (computeInsights l1).demand = (computeInsights l2).demand ∧
    (computeInsights l1).price.average = (computeInsights l2).price.average ∧
    (computeInsights l1).price.min = (computeInsights l2).price.min ∧
    (computeInsights l1).price.max = (computeInsights l2).price.max ∧
    (computeInsights l1).price.volatility = (computeInsights l2).price.volatility := by
  by_cases he : l1.isEmpty
  · have he2 : l2.isEmpty := by
      rw [List.isEmpty_iff, ← List.length_eq_zero, ← hp.length_eq, List.length_eq_zero,
        ← List.isEmpty_iff]
      exact he
    simp only [computeInsights]
    rw [if_pos he, if_pos he2]
    exact ⟨rfl, rfl, rfl, rfl, rfl⟩
  · have he2 : ¬ l2.isEmpty := by
      rw [List.isEmpty_iff, ← List.length_eq_zero, ← hp.length_eq, List.length_eq_zero,
        ← List.isEmpty_iff]
      exact he
    have htu : totalUnits l1 = totalUnits l2 :=
      (hp.map (fun e : SaleEntry => e.quantity)).sum_eq
    have htr : totalRevenue l1 = totalRevenue l2 :=
      (hp.map (fun e : SaleEntry => e.quantity * e.price)).sum_eq
    have hpp : (pricePoints l1).Perm (pricePoints l2) :=
      List.Perm.filter _ (hp.map (fun e => e.price))
    have hud : uniqueDates l1 = uniqueDates l2 := uniqueDates_perm_eq hp
    simp only [computeInsights, totalUnits, totalRevenue] at htu htr ⊢
    rw [if_neg he, if_neg he2, htu, htr, hud, min?_perm hpp, max?_perm hpp,
      calculateStdDevSq_perm hpp]
    exact ⟨rfl, rfl, rfl, rfl, rfl⟩

/-- Witness for the amended C8 at a concrete permutation pair. -/
theorem computeInsights_perm_invariant_witness :
    (computeInsights [insightEntryA, insightEntryB, insightEntryC]).demand =
      (computeInsights [insightEntryC, insightEntryA, insightEntryB]).demand :=
  (computeInsights_perm_invariant [insightEntryA, insightEntryB, insightEntryC]
    [insightEntryC, insightEntryA, insightEntryB] (by decide)).1

/-- Any successful `predictPrice` answer satisfies the recommendation
formula: the recommended price is the raw recommendation
`basePrice × adjustmentRatio` clamped into the returned band. -/
theorem predictPrice_ok_spec (cost margin : ℚ) (f : ForecastDocLite)
    (r : PriceRecommendation) (h : predictPrice cost margin f = Except.ok r) :
    r.recommendedPrice =
      clamp (cost * (1 + margin / 100) *
          clamp (1 + (r.demandRatio - 1) * (1 / 2)) (4 / 5) (6 / 5))
        r.priceBand.min r.priceBand.max := by
  rw [predictPrice] at h
  split at h
  · exact absurd h (by simp)
  · split at h
    · exact absurd h (by simp)
    · split at h
      · exact absurd h (by simp)
      · simp only [Except.ok.injEq] at h
        subst h
        rfl

/-- C9: `predictPrice` computes `basePrice = cost × (1 + margin/100)`,
`adjustmentRatio = clamp(1 + (demandRatio − 1) × 0.5, 0.8, 1.2)` and
recommends `basePrice × adjustmentRatio` clamped into the returned price
band; for `cost = 10`, `margin = 20`, `demandRatio = 1` the recommended
price is exactly 12, inside the band. -/
theorem predictPrice_formula :
    (∀ (cost margin : ℚ) (f : ForecastDocLite) (r : PriceRecommendation),
      predictPrice cost margin f = Except.ok r →
        r.recommendedPrice =
          clamp (cost * (1 + margin / 100) *
              clamp (1 + (r.demandRatio - 1) * (1 / 2)) (4 / 5) (6 / 5))
            r.priceBand.min r.priceBand.max) ∧
    predictPrice 10 20 forecastDocUnitRatio = Except.ok recommendationAt12 ∧
    recommendationAt12.demandRatio = 1 ∧
    recommendationAt12.recommendedPrice = 12 ∧
    recommendationAt12.priceBand.min ≤ 12 ∧ (12 : ℚ) ≤ recommendationAt12.priceBand.max := by
  refine ⟨predictPrice_ok_spec, ?_, ?_, ?_, ?_, ?_⟩
  · rw [predictPrice]
    norm_num [forecastDocUnitRatio, fivePrediction, clamp, recommendationAt12]
  · rfl
  · rfl
  · norm_num [recommendationAt12]
  · norm_num [recommendationAt12]

/-- Witness for C9: the formula instantiated at the concrete
`cost = 10, margin = 20, demandRatio = 1` forecast. -/
theorem predictPrice_formula_witness :
    recommendationAt12.recommendedPrice =
      clamp (10 * (1 + 20 / 100) *
          clamp (1 + (recommendationAt12.demandRatio - 1) * (1 / 2)) (4 / 5) (6 / 5))
        recommendationAt12.priceBand.min recommendationAt12.priceBand.max :=
  predictPrice_formula.1 10 20 forecastDocUnitRatio recommendationAt12
    (by
      rw [predictPrice]
      norm_num [forecastDocUnitRatio, fivePrediction, clamp, recommendationAt12])

/-- Counterexample to C10: when the band is inverted
(`priceBand.min > priceBand.max`) and the raw recommendation is not below
`priceBand.min`, the upper-bound check fires and the recommended price is
`priceBand.max`, strictly below `priceBand.min` — so the recommended price
is neither always `≥ priceBand.min` nor equal to `priceBand.min` whenever
the band is inverted. -/
theorem predictPrice_below_band_min :
    predictPrice 100 50 forecastDocLowBand = Except.ok recommendationLowBand ∧
    recommendationLowBand.priceBand.max < recommendationLowBand.priceBand.min ∧
    recommendationLowBand.recommendedPrice < recommendationLowBand.priceBand.min ∧
    recommendationLowBand.recommendedPrice ≠ recommendationLowBand.priceBand.min := by
  refine ⟨?_, ?_, ?_, ?_⟩
  · rw [predictPrice]
    norm_num [forecastDocLowBand, fivePrediction, clamp, recommendationLowBand]
  · norm_num [recommendationLowBand]
  · norm_num [recommendationLowBand]
  · norm_num [recommendationLowBand]

/-- C10 (amended): the final clamp of `predictPrice` applies its lower
bound first — whenever the raw recommendation is below `priceBand.min`
the recommended price equals `priceBand.min` (and therefore exceeds
`priceBand.max` whenever the band is inverted); but when the raw
recommendation is at least `priceBand.min`, only the upper check applies,
so the result can drop below `priceBand.min` when the band is inverted. -/
theorem predictPrice_lower_bound_first (cost margin : ℚ) (f : ForecastDocLite)
    (r : PriceRecommendation) (h : predictPrice cost margin f = Except.ok r) :
    (cost * (1 + margin / 100) * clamp (1 + (r.demandRatio - 1) * (1 / 2)) (4 / 5) (6 / 5) <
        r.priceBand.min →
      r.recommendedPrice = r.priceBand.min ∧
        (r.priceBand.max < r.priceBand.min → r.priceBand.max < r.recommendedPrice)) ∧
    (r.priceBand.min ≤
        cost * (1 + margin / 100) * clamp (1 + (r.demandRatio - 1) * (1 / 2)) (4 / 5) (6 / 5) →
      r.recommendedPrice =
        (if cost * (1 + margin / 100) *
              clamp (1 + (r.demandRatio - 1) * (1 / 2)) (4 / 5) (6 / 5) > r.priceBand.max
         then r.priceBand.max
         else cost * (1 + margin / 100) *
              clamp (1 + (r.demandRatio - 1) * (1 / 2)) (4 / 5) (6 / 5))) := by
  have hs := predictPrice_ok_spec cost margin f r h
  constructor
  · intro hlt
    rw [hs, clamp, if_pos hlt]
    exact ⟨rfl, fun hinv => hinv.trans_le (le_of_eq rfl) |>.trans_le (le_refl _)⟩
  · intro hge
    rw [hs, clamp, if_neg (not_lt.mpr hge)]

/-- Witness for the amended C10: with cost 100 and margin 0 on the
inverted-band forecast the raw recommendation 100 is below the band
minimum 101, so the answer is the band minimum, above the band maximum. -/
theorem predictPrice_lower_bound_first_witness :
    recommendationMin101.recommendedPrice = recommendationMin101.priceBand.min ∧
    (recommendationMin101.priceBand.max < recommendationMin101.priceBand.min →
      recommendationMin101.priceBand.max < recommendationMin101.recommendedPrice) :=
  (predictPrice_lower_bound_first 100 0 forecastDocLowBand recommendationMin101
    (by
      rw [predictPrice]
      norm_num [forecastDocLowBand, fivePrediction, clamp, recommendationMin101])).1
    (by norm_num [recommendationMin101, clamp])

end SaleForecast
